import Mathlib

/-!
Verification of the request-dispatch and resource-addressing layer of the
gcal_rs repository (src/client.rs, src/resources/calendar_list.rs).

The Rust code is shallowly embedded: `reqwest` machinery is abstracted as a
transport function from requests to responses, the `tokio::sync::RwLock`
around the token becomes explicit state passing together with an event trace
recording lock acquisitions, refresher invocations, token reads and transport
sends.  Types that the repository defines outside the provided sources
(the `Sendable` trait defaults, `OToken`, `OAuth`, `ClientError`,
`CalendarAccessRole`, `QueryParams`, `DefaultReminder`,
`ConferenceProperties`) are modelled from the specification; each such
definition says so in its doc comment.
-/

namespace Gcal

/-- Structured record values of the wire format: JSON. -/
inductive Json where
  | null
  | bool (b : Bool)
  | num (n : Int)
  | str (s : String)
  | arr (elems : List Json)
  | obj (fields : List (String × Json))

/-- Field lookup on a JSON object (first occurrence, as `serde_json` maps
give one value per key); `none` on non-objects or missing fields. -/
def Json.getField (j : Json) (k : String) : Option Json :=
  match j with
  | .obj fields => (fields.find? (fun p => p.1 == k)).map (·.2)
  | _ => none

/-- UTF-8 encoding of one scalar value. -/
def utf8EncodeChar (c : Char) : List Nat :=
  let n := c.toNat
  if n < 128 then [n]
  else if n < 2048 then [192 + n / 64, 128 + n % 64]
  else if n < 65536 then [224 + n / 4096, 128 + (n / 64) % 64, 128 + n % 64]
  else [240 + n / 262144, 128 + (n / 4096) % 64, 128 + (n / 64) % 64,
    128 + n % 64]

/-- UTF-8 encoding of a string as a byte list. -/
def utf8Encode (s : String) : List Nat :=
  s.data.foldr (fun c acc => utf8EncodeChar c ++ acc) []

/-- Is `b` a UTF-8 continuation byte? -/
def isCont (b : Nat) : Bool := 128 ≤ b && b ≤ 191

/-- Decode one UTF-8 scalar value from the front of a byte list, returning
the code point and the remaining bytes; `none` on any ill-formed sequence
(stray continuation byte, overlong form, surrogate, value above 0x10FFFF),
matching the strict validation of `String::from_utf8`. -/
def utf8Step : List Nat → Option (Nat × List Nat)
  | [] => none
  | b0 :: rest =>
    if b0 ≤ 127 then some (b0, rest)
    else if 194 ≤ b0 && b0 ≤ 223 then
      match rest with
      | b1 :: rest2 =>
        if isCont b1 then some ((b0 - 192) * 64 + (b1 - 128), rest2) else none
      | [] => none
    else if 224 ≤ b0 && b0 ≤ 239 then
      match rest with
      | b1 :: b2 :: rest3 =>
        let okB1 :=
          if b0 = 224 then 160 ≤ b1 && b1 ≤ 191
          else if b0 = 237 then 128 ≤ b1 && b1 ≤ 159
          else isCont b1
        if okB1 && isCont b2 then
          some ((b0 - 224) * 4096 + (b1 - 128) * 64 + (b2 - 128), rest3)
        else none
      | _ => none
    else if 240 ≤ b0 && b0 ≤ 244 then
      match rest with
      | b1 :: b2 :: b3 :: rest4 =>
        let okB1 :=
          if b0 = 240 then 144 ≤ b1 && b1 ≤ 191
          else if b0 = 244 then 128 ≤ b1 && b1 ≤ 143
          else isCont b1
        if okB1 && isCont b2 && isCont b3 then
          some ((b0 - 240) * 262144 + (b1 - 128) * 4096 + (b2 - 128) * 64
            + (b3 - 128), rest4)
        else none
      | _ => none
    else none

/-- Fuelled driver for UTF-8 decoding; the fuel is an upper bound on the
number of scalars, for which the byte count suffices. -/
def utf8DecodeAux : Nat → List Nat → Option (List Char)
  | _, [] => some []
  | 0, _ :: _ => none
  | fuel + 1, bytes =>
    match utf8Step bytes with
    | none => none
    | some (cp, rest) =>
      (utf8DecodeAux fuel rest).map (fun cs => Char.ofNat cp :: cs)

/-- Embeds `String::from_utf8` on a byte list: the decoded string, or `none` when
the bytes are not valid UTF-8. -/
def utf8Decode (bytes : List Nat) : Option String :=
  (utf8DecodeAux bytes.length bytes).map String.mk

/-- Modelled from the spec: the error kinds of `ClientError` (section 7 of the
spec); the enum itself lives outside the provided sources.  `DecodeError`
covers a response body that fails structured decoding. -/
inductive ClientError where
  | TransportInitError
  | TransportError
  | UrlError
  | SerializationError
  | HeaderDecodeError
  | InvalidToken
  | AuthError
  | DecodeError
deriving DecidableEq, Repr

/-- Modelled from the spec: `AccessToken { access: string, expiry info }`.
Only the `access` field is read by the dispatch layer (`set_bearer`); the
expiry bookkeeping is owned by the external refresher and is not modelled. -/
structure OToken where
  access : String
deriving DecidableEq, Repr

/-- Modelled from the spec: the credential-exchange collaborator.
`refresh(mut current_token)` may replace the stored token and fails with an
`AuthError`-style `ClientError`; modelled as a function from the current
token to the new token or an error. -/
def Refresher : Type := OToken → Except ClientError OToken

/-- A resolved URL: the fixed base endpoint, the resource-relative path and
the query-parameter mapping, kept separate so theorems can speak about each
component. -/
structure Url where
  base : String
  path : String
  query : List (String × String)
deriving DecidableEq, Repr

/-- The full path component of a URL (base endpoint followed by the
resource-relative path). -/
def Url.fullPath (u : Url) : String := u.base ++ "/" ++ u.path

/-- An outbound HTTP request as handed to the transport: method, resolved
URL, header list (name, value) and optional byte body. -/
structure Request where
  method : String
  url : Url
  headers : List (String × String)
  body : Option (List Nat)
deriving DecidableEq, Repr

/-- A wire response: status code, raw headers (name, value bytes, a byte
being a `Nat < 256`) and the body, already parsed as JSON when it is valid
JSON (`none` models a body that is not valid JSON). -/
structure Response where
  status : Nat
  headers : List (String × List Nat)
  body : Option Json

/-- Embeds `HeaderValue::to_str` from the `http` crate: succeeds exactly when every
byte is visible ASCII, space or horizontal tab, and then yields the ASCII
string. -/
def headerToStr (bytes : List Nat) : Option String :=
  if bytes.all (fun b => (32 ≤ b && b ≤ 126) || b = 9) then
    some (String.mk (bytes.map Char.ofNat))
  else
    none

/-- ASCII lowering of one character. -/
def lowerChar (c : Char) : Char :=
  if 'A' ≤ c && c ≤ 'Z' then Char.ofNat (c.toNat + 32) else c

/-- ASCII lowering of a header name. -/
def lowerName (s : String) : String := String.mk (s.data.map lowerChar)

/-- Embeds `resp.headers().get("WWW-Authenticate")`: header names are
case-insensitive in a `HeaderMap`, and `get` returns the first matching
value. -/
def findAuthHeader (resp : Response) : Option (List Nat) :=
  (resp.headers.find? (fun p => lowerName p.1 == "www-authenticate")).map (·.2)

/-- The marker checked by `GCalClient::send`. -/
def invalidTokenMarker : String := "Bearer error=\"invalid_token\""

/-- Rust's `str::starts_with` on strings, via the character lists. -/
def strStartsWith (s p : String) : Bool := p.data.isPrefixOf s.data

/-- The bytes of an ASCII string. -/
def asciiBytes (s : String) : List Nat := s.data.map Char.toNat

/-- The response inspection at the end of `GCalClient::send`
(src/client.rs lines 126-136): a non-200 status whose first
`WWW-Authenticate` header is valid text starting with the marker yields
`InvalidToken`; `to_str()?` on a non-text header value propagates a decode
error; every other response is returned unchanged. -/
def classifyResponse (resp : Response) : Except ClientError Response :=
  if resp.status ≠ 200 then
    match findAuthHeader resp with
    | some v =>
      match headerToStr v with
      | none => .error .HeaderDecodeError
      | some s =>
        if strStartsWith s invalidTokenMarker then .error .InvalidToken
        else .ok resp
    | none => .ok resp
  else
    .ok resp

/-- Observable events of one dispatch, in order: write-lock acquisition and
release around the refresher call, read-lock acquisition and release around
the token read that feeds the bearer header, and the transport send. -/
inductive Event where
  | acquireWrite
  | refreshCall
  | releaseWrite
  | acquireRead
  | readToken (access : String)
  | releaseRead
  | transportSend (req : Request)

def Event.isRefresh : Event → Bool
  | .refreshCall => true
  | _ => false

def Event.isSend : Event → Bool
  | .transportSend _ => true
  | _ => false

/-- Events that touch the token store with write access. -/
def Event.isWrite : Event → Bool
  | .acquireWrite => true
  | .refreshCall => true
  | .releaseWrite => true
  | _ => false

def Event.isRead : Event → Bool
  | .readToken _ => true
  | _ => false

/-- The requests actually handed to the transport during a call. -/
def sentRequests (tr : List Event) : List Request :=
  tr.foldr (fun e acc => match e with | .transportSend r => r :: acc | _ => acc) []

/-- The configuration `GCalClient::new` hands to the `reqwest`
`ClientBuilder`: `.gzip(true).https_only(true)`. -/
structure TransportConfig where
  gzip : Bool
  httpsOnly : Bool
deriving DecidableEq, Repr

/-- The embedded `GCalClient` (src/client.rs lines 15-23): the built
transport is its recorded configuration plus its behaviour as a function from
requests to responses (`.error` models network failure), together with the
optional fixed header set, the token store contents, the optional refresher
and the debug flag. -/
structure GCalClient where
  config : TransportConfig
  respond : Request → Except ClientError Response
  headers : Option (List (String × String))
  token : OToken
  oauth : Option Refresher
  debug : Bool

/-- Outcome of one verb call: the result returned to the caller, the token
store contents after the call, the event trace and the emitted debug
diagnostic lines. -/
structure SendOutcome where
  result : Except ClientError Response
  token : OToken
  trace : List Event
  diag : List String

/-- Embeds `GCalClient::set_bearer` (src/client.rs lines 159-164): attach
`Authorization: Bearer {access}` built from the token store's access value. -/
def set_bearer (req : Request) (access : String) : Request :=
  { req with headers := req.headers ++ [("Authorization", "Bearer " ++ access)] }

/-- The tail of `GCalClient::send` once the token store holds `tok`: merge
the fixed headers, read the token under the read lock, attach the bearer
header, send over the transport and classify the response.  `pre` is the
trace of the refresh step. -/
def dispatchWith (c : GCalClient) (tok : OToken) (req : Request)
    (pre : List Event) : SendOutcome :=
  let req1 := { req with headers := req.headers ++ c.headers.getD [] }
  let req2 := set_bearer req1 tok.access
  let tr := pre ++ [.acquireRead, .readToken tok.access, .releaseRead,
    .transportSend req2]
  match c.respond req2 with
  | .error e => { result := .error e, token := tok, trace := tr, diag := [] }
  | .ok resp =>
    { result := classifyResponse resp, token := tok, trace := tr, diag := [] }

/-- Embeds `GCalClient::send` (src/client.rs lines 117-137): if a refresher is
configured it is invoked while the write lock on the token store is held and
its failure aborts the call; then the fixed headers are merged, the bearer
header attached from a read of the store, the request sent once, and the
response classified. -/
def GCalClient.send (c : GCalClient) (req : Request) : SendOutcome :=
  match c.oauth with
  | some refresher =>
    match refresher c.token with
    | .error e =>
      { result := .error e, token := c.token,
        trace := [.acquireWrite, .refreshCall, .releaseWrite], diag := [] }
    | .ok tok =>
      dispatchWith c tok req [.acquireWrite, .refreshCall, .releaseWrite]
  | none => dispatchWith c c.token req []

/-- A value of the `Sendable` capability, as consumed by the client: the
resource-relative path for an optional action, the query mapping, the
URL resolver and the serialized body.  `url` and `bodyBytes` are fallible as
the trait declares (`UrlError` / `SerializationError`). -/
structure Descriptor where
  path : Option String → String
  query : List (String × String)
  url : Option String → Except ClientError Url
  bodyBytes : Except ClientError (List Nat)

/-- Embeds `GCalClient::get_url` (src/client.rs lines 139-157): resolve the URL via
the descriptor; in debug mode additionally serialize the body (its failure
propagates through the `?` operator) and render the diagnostic line, where a
body that is not valid UTF-8 degrades to the empty string. -/
def GCalClient.get_url (c : GCalClient) (method : String) (target : Descriptor)
    (action : Option String) : Except ClientError (Url × List String) :=
  match target.url action with
  | .error e => .error e
  | .ok u =>
    if c.debug then
      match target.bodyBytes with
      | .error e => .error e
      | .ok bytes =>
        .ok (u, ["[" ++ method ++ "] " ++ u.fullPath ++ " | "
          ++ (utf8Decode bytes).getD ""])
    else
      .ok (u, [])

/-- Shared shape of the five verb methods: resolve the URL (aborting the call
on failure, before any refresh or send), build the request with the given
method and optional body, and dispatch it through `GCalClient::send`. -/
def verbCall (c : GCalClient) (method : String) (target : Descriptor)
    (action : Option String) (body : Option (List Nat)) : SendOutcome :=
  match c.get_url method target action with
  | .error e => { result := .error e, token := c.token, trace := [], diag := [] }
  | .ok (u, d) =>
    let out := c.send { method := method, url := u, headers := [], body := body }
    { out with diag := d ++ out.diag }

/-- Embeds `GCalClient::get` (src/client.rs lines 56-63): no body is attached and
`body_bytes` is not consulted outside the debug diagnostic. -/
def GCalClient.get (c : GCalClient) (action : Option String)
    (target : Descriptor) : SendOutcome :=
  verbCall c "GET" target action none

/-- Embeds `GCalClient::post` (src/client.rs lines 66-77): the URL is resolved
first, then `body_bytes` (whose failure aborts the call) is attached as the
request body. -/
def GCalClient.post (c : GCalClient) (action : Option String)
    (target : Descriptor) : SendOutcome :=
  match c.get_url "POST" target action with
  | .error e => { result := .error e, token := c.token, trace := [], diag := [] }
  | .ok (u, d) =>
    match target.bodyBytes with
    | .error e =>
      { result := .error e, token := c.token, trace := [], diag := d }
    | .ok bytes =>
      let out := c.send
        { method := "POST", url := u, headers := [], body := some bytes }
      { out with diag := d ++ out.diag }

/-- Embeds `GCalClient::put` (src/client.rs lines 80-91): like `post`. -/
def GCalClient.put (c : GCalClient) (action : Option String)
    (target : Descriptor) : SendOutcome :=
  match c.get_url "PUT" target action with
  | .error e => { result := .error e, token := c.token, trace := [], diag := [] }
  | .ok (u, d) =>
    match target.bodyBytes with
    | .error e =>
      { result := .error e, token := c.token, trace := [], diag := d }
    | .ok bytes =>
      let out := c.send
        { method := "PUT", url := u, headers := [], body := some bytes }
      { out with diag := d ++ out.diag }

/-- Embeds `GCalClient::patch` (src/client.rs lines 94-105): like `post`. -/
def GCalClient.patch (c : GCalClient) (action : Option String)
    (target : Descriptor) : SendOutcome :=
  match c.get_url "PATCH" target action with
  | .error e => { result := .error e, token := c.token, trace := [], diag := [] }
  | .ok (u, d) =>
    match target.bodyBytes with
    | .error e =>
      { result := .error e, token := c.token, trace := [], diag := d }
    | .ok bytes =>
      let out := c.send
        { method := "PATCH", url := u, headers := [], body := some bytes }
      { out with diag := d ++ out.diag }

/-- Embeds `GCalClient::delete` (src/client.rs lines 108-115): like `get`, no body. -/
def GCalClient.delete (c : GCalClient) (action : Option String)
    (target : Descriptor) : SendOutcome :=
  verbCall c "DELETE" target action none

/-- Embeds `GCalClient::new` (src/client.rs lines 27-37): build the transport with
`gzip(true).https_only(true)` — the builder (external `reqwest` machinery) is
a parameter, and its failure is surfaced as the transport-initialisation
error kind — then store the token, the optional refresher, no fixed headers
and a cleared debug flag. -/
def GCalClient.new
    (build : TransportConfig → Except Unit (Request → Except ClientError Response))
    (token : OToken) (oauth : Option Refresher) : Except ClientError GCalClient :=
  match build { gzip := true, httpsOnly := true } with
  | .error _ => .error .TransportInitError
  | .ok respond =>
    .ok
      { config := { gzip := true, httpsOnly := true }, respond := respond,
        headers := none, token := token, oauth := oauth, debug := false }

/-- Minimal JSON string escaping (quote and backslash; the further control
character escapes of `serde_json` are immaterial to the field names and
values used here). -/
def escapeStr (s : String) : String :=
  s.data.foldl
    (fun acc c =>
      acc ++ (if c = '"' then "\\\"" else if c = '\\' then "\\\\"
        else String.singleton c))
    ""

mutual

/-- Compact JSON rendering, as `serde_json::to_vec` produces (modulo the
escaping caveat on `escapeStr`). -/
def renderJson : Json → String
  | .null => "null"
  | .bool b => if b then "true" else "false"
  | .num n => toString n
  | .str s => "\"" ++ escapeStr s ++ "\""
  | .arr xs => "[" ++ renderArr xs ++ "]"
  | .obj fs => "\x7b" ++ renderObj fs ++ "\x7d"

def renderArr : List Json → String
  | [] => ""
  | [x] => renderJson x
  | x :: y :: xs => renderJson x ++ "," ++ renderArr (y :: xs)

def renderObj : List (String × Json) → String
  | [] => ""
  | [(k, v)] => "\"" ++ escapeStr k ++ "\":" ++ renderJson v
  | (k, v) :: y :: xs =>
    "\"" ++ escapeStr k ++ "\":" ++ renderJson v ++ "," ++ renderObj (y :: xs)

end

/-- The serialized bytes of a JSON value: UTF-8 of its compact rendering. -/
def jsonBytes (j : Json) : List Nat := utf8Encode (renderJson j)

/-- Modelled from the spec: the fixed base endpoint (fixed service host with
a fixed API version segment, spec section 6); the constant itself lives in
the `Sendable` module outside the provided sources. -/
def baseUrl : String := "https://www.googleapis.com/calendar/v3"

/-- Modelled from the spec: the default `Sendable::url` implementation,
composing the fixed base endpoint, `path(action)` and `query()`.  The
spec's `UrlError` case arises only from a malformed combination, which the
fixed well-formed base and the path composition below never produce. -/
def specUrl (path : Option String → String) (query : List (String × String))
    (action : Option String) : Except ClientError Url :=
  .ok { base := baseUrl, path := path action, query := query }

/-- Modelled from the spec: `QueryParams` insertion (a string-to-string
mapping; insertion order irrelevant per spec section 3).  Inserting replaces
an existing binding of the key or appends a new one. -/
def insertQuery (q : List (String × String)) (k v : String) :
    List (String × String) :=
  if q.any (fun p => p.1 == k) then
    q.map (fun p => if p.1 == k then (k, v) else p)
  else
    q ++ [(k, v)]

/-- Rust's `bool::to_string`. -/
def boolStr (b : Bool) : String := if b then "true" else "false"

/-- Modelled from the spec: `CalendarAccessRole` (the access-role filter
enum used by the calendar-list client; its definition lives outside the
provided sources).  Variants per the service's access roles. -/
inductive CalendarAccessRole where
  | freeBusyReader
  | owner
  | reader
  | writer
deriving DecidableEq, Repr

/-- Modelled from the spec: the string form of an access role (its
lower-camel-case wire name, used both for the `minAccessRole` query value
and for serialization). -/
def CalendarAccessRole.str : CalendarAccessRole → String
  | .freeBusyReader => "freeBusyReader"
  | .owner => "owner"
  | .reader => "reader"
  | .writer => "writer"

def CalendarAccessRole.fromJson : Json → Option CalendarAccessRole
  | .str "freeBusyReader" => some .freeBusyReader
  | .str "owner" => some .owner
  | .str "reader" => some .reader
  | .str "writer" => some .writer
  | _ => none

/-- Modelled from the spec: a `defaultReminders` collection element (its
record type lives outside the provided sources); only the collection's
emptiness matters to the claims. -/
structure DefaultReminder where
  method : String
  minutes : Nat
deriving DecidableEq, Repr

def DefaultReminder.toJson (r : DefaultReminder) : Json :=
  .obj [("method", .str r.method), ("minutes", .num r.minutes)]

def DefaultReminder.fromJson : Json → Option DefaultReminder
  | j =>
    match j.getField "method", j.getField "minutes" with
    | some (.str m), some (.num n) =>
      if 0 ≤ n then some { method := m, minutes := n.toNat } else none
    | _, _ => none

/-- Modelled from the spec: `ConferenceProperties` (outside the provided
sources); an opaque record, carried through (de)serialization unchanged. -/
structure ConferenceProperties where
  allowedConferenceSolutionTypes : List String
deriving DecidableEq, Repr

def ConferenceProperties.toJson (c : ConferenceProperties) : Json :=
  .obj [("allowedConferenceSolutionTypes",
    .arr (c.allowedConferenceSolutionTypes.map Json.str))]

/-- A JSON string element, for array parsing. -/
def parseStrElem : Json → Option String
  | .str s => some s
  | _ => none

def ConferenceProperties.fromJson (j : Json) : Option ConferenceProperties :=
  match j.getField "allowedConferenceSolutionTypes" with
  | some (.arr xs) =>
    (xs.mapM parseStrElem).map
      (fun ss => ({ allowedConferenceSolutionTypes := ss } : ConferenceProperties))
  | _ => none

/-- Embeds `NotificationSettingMethod` (calendar_list.rs lines 83-88). -/
inductive NotificationSettingMethod where
  | eMail
deriving DecidableEq, Repr

/-- The serde wire name: `#[serde(rename = "email")]`. -/
def NotificationSettingMethod.str : NotificationSettingMethod → String
  | .eMail => "email"

/-- Embeds `NotificationSettingType` (calendar_list.rs lines 90-98). -/
inductive NotificationSettingType where
  | eventCreation
  | eventChange
  | eventCancellation
  | eventResponse
  | agenda
deriving DecidableEq, Repr

/-- The serde wire names under `rename_all = "camelCase"`. -/
def NotificationSettingType.str : NotificationSettingType → String
  | .eventCreation => "eventCreation"
  | .eventChange => "eventChange"
  | .eventCancellation => "eventCancellation"
  | .eventResponse => "eventResponse"
  | .agenda => "agenda"

def NotificationSettingType.fromStr : String → Option NotificationSettingType
  | "eventCreation" => some .eventCreation
  | "eventChange" => some .eventChange
  | "eventCancellation" => some .eventCancellation
  | "eventResponse" => some .eventResponse
  | "agenda" => some .agenda
  | _ => none

/-- Embeds `NotificationSetting` (calendar_list.rs lines 75-81); the `typ` field is
renamed to `type` on the wire. -/
structure NotificationSetting where
  method : NotificationSettingMethod
  typ : NotificationSettingType
deriving DecidableEq, Repr

def NotificationSetting.toJson (n : NotificationSetting) : Json :=
  .obj [("method", .str n.method.str), ("type", .str n.typ.str)]

def NotificationSetting.fromJson (j : Json) : Option NotificationSetting :=
  match j.getField "method", j.getField "type" with
  | some (.str "email"), some (.str t) =>
    (NotificationSettingType.fromStr t).map
      (fun ty => ({ method := .eMail, typ := ty } : NotificationSetting))
  | _, _ => none

/-- Embeds `NotificationSettings` (calendar_list.rs lines 68-73): its one field is
skipped on serialization when the collection is empty, and — having no serde
default — is required on deserialization. -/
structure NotificationSettings where
  notifications : List NotificationSetting
deriving DecidableEq, Repr

def NotificationSettings.toJson (s : NotificationSettings) : Json :=
  .obj
    (if s.notifications.isEmpty then []
     else [("notifications", .arr (s.notifications.map NotificationSetting.toJson))])

def NotificationSettings.fromJson (j : Json) : Option NotificationSettings :=
  match j.getField "notifications" with
  | some (.arr xs) =>
    (xs.mapM NotificationSetting.fromJson).map
      (fun ns => ({ notifications := ns } : NotificationSettings))
  | _ => none

/-- Embeds `default_entry_kind` (calendar_list.rs lines 16-18). -/
def default_entry_kind : Option String := some "calendar#calendarListEntry"

/-- Embeds `default_list_kind` (calendar_list.rs lines 20-22). -/
def default_list_kind : Option String := some "calendar#calendarList"

/-- Embeds `CalendarListItem` (calendar_list.rs lines 26-66), with the source's
field names; `query_string` is the serde-skipped query-parameter state. -/
structure CalendarListItem where
  kind : Option String
  id : String
  etag : String
  location : Option String
  summary : String
  summary_override : Option String
  time_zone : Option String
  access_role : CalendarAccessRole
  background_color : Option String
  foreground_color : Option String
  color_id : Option String
  conference_properties : Option ConferenceProperties
  deleted : Option Bool
  hidden : Option Bool
  primary : Option Bool
  selected : Option Bool
  description : Option String
  notification_settings : Option NotificationSettings
  default_reminders : List DefaultReminder
  query_string : List (String × String)
deriving DecidableEq, Repr

/-- One serialized field of an `Option` member marked
`#[serde(skip_serializing_if = "Option::is_none")]`: omitted when absent. -/
def optField (name : String) (v : Option Json) : List (String × Json) :=
  match v with
  | none => []
  | some j => [(name, j)]

/-- The serde serialization of a `CalendarListItem` as the list of emitted
object fields, in declaration order, under `rename_all = "camelCase"`:
members with `skip_serializing_if = "Option::is_none"` are omitted when
`none`, `default_reminders` is omitted when empty, `query_string` is always
skipped, and `notification_settings` — which carries no skip attribute — is
always emitted, as `null` when absent. -/
def CalendarListItem.serFields (it : CalendarListItem) : List (String × Json) :=
  optField "kind" (it.kind.map Json.str)
  ++ [("id", .str it.id), ("etag", .str it.etag)]
  ++ optField "location" (it.location.map Json.str)
  ++ [("summary", .str it.summary)]
  ++ optField "summaryOverride" (it.summary_override.map Json.str)
  ++ optField "timeZone" (it.time_zone.map Json.str)
  ++ [("accessRole", .str it.access_role.str)]
  ++ optField "backgroundColor" (it.background_color.map Json.str)
  ++ optField "foregroundColor" (it.foreground_color.map Json.str)
  ++ optField "colorId" (it.color_id.map Json.str)
  ++ optField "conferenceProperties"
    (it.conference_properties.map ConferenceProperties.toJson)
  ++ optField "deleted" (it.deleted.map Json.bool)
  ++ optField "hidden" (it.hidden.map Json.bool)
  ++ optField "primary" (it.primary.map Json.bool)
  ++ optField "selected" (it.selected.map Json.bool)
  ++ optField "description" (it.description.map Json.str)
  ++ [("notificationSettings",
    match it.notification_settings with
    | none => .null
    | some ns => ns.toJson)]
  ++ (if it.default_reminders.isEmpty then []
      else [("defaultReminders",
        .arr (it.default_reminders.map DefaultReminder.toJson))])

def CalendarListItem.toJson (it : CalendarListItem) : Json :=
  .obj it.serFields

/-- serde deserialization of an `Option<String>` member: missing or `null`
gives `none`, a string gives `some`, anything else is an error. -/
def parseOptString : Option Json → Option (Option String)
  | none => some none
  | some .null => some none
  | some (.str s) => some (some s)
  | some _ => none

/-- serde deserialization of an `Option<bool>` member. -/
def parseOptBool : Option Json → Option (Option Bool)
  | none => some none
  | some .null => some none
  | some (.bool b) => some (some b)
  | some _ => none

/-- A required `String` member. -/
def parseReqString : Option Json → Option String
  | some (.str s) => some s
  | _ => none

/-- An `Option` member with an explicit `#[serde(default = d)]`: the default
applies only when the field is missing; a present `null` still gives
`none`. -/
def parseKind (dflt : Option String) : Option Json → Option (Option String)
  | none => some dflt
  | some .null => some none
  | some (.str s) => some (some s)
  | some _ => none

/-- serde deserialization of `CalendarListItem` (derive semantics: `Option`
members default to `none` when missing, the `kind` member uses
`default_entry_kind`, `default_reminders` and the members without defaults
are required, `query_string` is skipped and takes its `Default` value,
unknown fields are ignored). -/
def CalendarListItem.fromJson (j : Json) : Option CalendarListItem :=
  match j with
  | .obj _ =>
    match parseKind default_entry_kind (j.getField "kind"),
        parseReqString (j.getField "id"),
        parseReqString (j.getField "etag"),
        parseOptString (j.getField "location"),
        parseReqString (j.getField "summary"),
        parseOptString (j.getField "summaryOverride"),
        parseOptString (j.getField "timeZone"),
        (j.getField "accessRole").bind CalendarAccessRole.fromJson with
    | some kind, some id, some etag, some location, some summary,
        some summary_override, some time_zone, some access_role =>
      match parseOptString (j.getField "backgroundColor"),
          parseOptString (j.getField "foregroundColor"),
          parseOptString (j.getField "colorId"),
          (match j.getField "conferenceProperties" with
           | none => some none
           | some .null => some none
           | some cj => (ConferenceProperties.fromJson cj).map some),
          parseOptBool (j.getField "deleted"),
          parseOptBool (j.getField "hidden"),
          parseOptBool (j.getField "primary"),
          parseOptBool (j.getField "selected") with
      | some background_color, some foreground_color, some color_id,
          some conference_properties, some deleted, some hidden,
          some primary, some selected =>
        match parseOptString (j.getField "description"),
            (match j.getField "notificationSettings" with
             | none => some none
             | some .null => some none
             | some nj => (NotificationSettings.fromJson nj).map some),
            (match j.getField "defaultReminders" with
             | some (.arr xs) => xs.mapM DefaultReminder.fromJson
             | _ => none) with
        | some description, some notification_settings,
            some default_reminders =>
          some
            { kind := kind, id := id, etag := etag, location := location,
              summary := summary, summary_override := summary_override,
              time_zone := time_zone, access_role := access_role,
              background_color := background_color,
              foreground_color := foreground_color, color_id := color_id,
              conference_properties := conference_properties,
              deleted := deleted, hidden := hidden, primary := primary,
              selected := selected, description := description,
              notification_settings := notification_settings,
              default_reminders := default_reminders, query_string := [] }
        | _, _, _ => none
      | _, _, _, _, _, _, _, _ => none
    | _, _, _, _, _, _, _, _ => none
  | _ => none

/-- Embeds `CalendarList` (calendar_list.rs lines 100-114). -/
structure CalendarList where
  kind : Option String
  etag : String
  next_sync_token : Option String
  items : List CalendarListItem
  query_string : List (String × String)
deriving DecidableEq, Repr

/-- Embeds the `Default` derive on `CalendarList`: every member takes its `Default`
value (in particular `kind` is `None`; the serde default function applies
only to deserialization). -/
def CalendarList.default : CalendarList :=
  { kind := none, etag := "", next_sync_token := none, items := [],
    query_string := [] }

/-- The serde serialization of a `CalendarList` as its emitted object
fields. -/
def CalendarList.serFields (cl : CalendarList) : List (String × Json) :=
  optField "kind" (cl.kind.map Json.str)
  ++ [("etag", .str cl.etag)]
  ++ optField "nextSyncToken" (cl.next_sync_token.map Json.str)
  ++ (if cl.items.isEmpty then []
      else [("items", .arr (cl.items.map CalendarListItem.toJson))])

def CalendarList.toJson (cl : CalendarList) : Json :=
  .obj cl.serFields

/-- serde deserialization of `CalendarList`: `kind` defaults via
`default_list_kind` when missing, `etag` and `items` are required,
`next_sync_token` is an optional member, `query_string` is skipped. -/
def CalendarList.fromJson (j : Json) : Option CalendarList :=
  match j with
  | .obj _ =>
    match parseKind default_list_kind (j.getField "kind"),
        parseReqString (j.getField "etag"),
        parseOptString (j.getField "nextSyncToken"),
        (match j.getField "items" with
         | some (.arr xs) => xs.mapM CalendarListItem.fromJson
         | _ => none) with
    | some kind, some etag, some next_sync_token, some items =>
      some
        { kind := kind, etag := etag, next_sync_token := next_sync_token,
          items := items, query_string := [] }
    | _, _, _, _ => none
  | _ => none

/-- Embeds `Sendable::path` for `CalendarListItem` (calendar_list.rs lines
117-119): the action argument is ignored. -/
def CalendarListItem.path (it : CalendarListItem)
    (_action : Option String) : String :=
  "users/me/calendarList/" ++ it.id

/-- Embeds `Sendable::query` for `CalendarListItem` (calendar_list.rs lines
121-123). -/
def CalendarListItem.query (it : CalendarListItem) : List (String × String) :=
  it.query_string

/-- Embeds `Sendable::path` for `CalendarList` (calendar_list.rs lines 127-129):
the action argument is ignored. -/
def CalendarList.path (_cl : CalendarList) (_action : Option String) : String :=
  "users/me/calendarList"

/-- Embeds `Sendable::query` for `CalendarList` (calendar_list.rs lines 131-133). -/
def CalendarList.query (cl : CalendarList) : List (String × String) :=
  cl.query_string

/-- The `Sendable` capability of a `CalendarListItem`: the impl's `path` and
`query` with the trait-default `url` and serde-serialized body. -/
def CalendarListItem.descriptor (it : CalendarListItem) : Descriptor :=
  { path := it.path, query := it.query, url := specUrl it.path it.query,
    bodyBytes := .ok (jsonBytes it.toJson) }

/-- The `Sendable` capability of a `CalendarList`. -/
def CalendarList.descriptor (cl : CalendarList) : Descriptor :=
  { path := cl.path, query := cl.query, url := specUrl cl.path cl.query,
    bodyBytes := .ok (jsonBytes cl.toJson) }

/-- Embeds `Response::body_json`: decode the response body as the expected
type, a decode failure surfacing as an error rather than a default value. -/
def bodyJsonCalendarList (resp : Response) : Except ClientError CalendarList :=
  match resp.body.bind CalendarList.fromJson with
  | none => .error .DecodeError
  | some cl => .ok cl

/-- Outcome of a typed resource-client call. -/
structure ListOutcome where
  result : Except ClientError (List CalendarListItem)
  token : OToken
  trace : List Event
  diag : List String

/-- The descriptor `CalendarListClient::list` populates before dispatching
(calendar_list.rs lines 149-153): a `Default` `CalendarList` whose query
mapping receives `minAccessRole` and then `showHidden`. -/
def listDescriptor (hidden : Bool) (access_role : CalendarAccessRole) :
    Descriptor :=
  ({ CalendarList.default with
      query_string :=
        insertQuery
          (insertQuery CalendarList.default.query_string
            "minAccessRole" access_role.str)
          "showHidden" (boolStr hidden) } : CalendarList).descriptor

/-- Embeds `CalendarListClient::list` (calendar_list.rs lines 143-162): populate a
default `CalendarList` descriptor with the `minAccessRole` and `showHidden`
query parameters (in that insertion order), dispatch one `get` with no
action, decode the body as a `CalendarList` and return its `items`; only the
first page is retrieved — there is no continuation loop. -/
def CalendarListClient.list (c : GCalClient) (hidden : Bool)
    (access_role : CalendarAccessRole) : ListOutcome :=
  let out := c.get none (listDescriptor hidden access_role)
  match out.result with
  | .error e =>
    { result := .error e, token := out.token, trace := out.trace,
      diag := out.diag }
  | .ok resp =>
    match bodyJsonCalendarList resp with
    | .error e =>
      { result := .error e, token := out.token, trace := out.trace,
        diag := out.diag }
    | .ok cl2 =>
      { result := .ok cl2.items, token := out.token, trace := out.trace,
        diag := out.diag }

/-! ## Concrete fixtures used by witnesses and counterexamples -/

/-- The token of the spec's scenario. -/
def tokAbc : OToken := { access := "abc" }

/-- A plain successful response. -/
def okResp : Response := { status := 200, headers := [], body := none }

/-- The scenario client: token `abc`, no refresher, a transport that answers
every request with `okResp`. -/
def clientAbc : GCalClient :=
  { config := { gzip := true, httpsOnly := true },
    respond := fun _ => .ok okResp,
    headers := none, token := tokAbc, oauth := none, debug := false }

/-- The same client with debug mode enabled. -/
def clientDbg : GCalClient := { clientAbc with debug := true }

/-- A request used to exercise the dispatch path directly. -/
def reqNone : Request :=
  { method := "GET", url := { base := baseUrl, path := "", query := [] },
    headers := [], body := none }

/-- A refresher that always succeeds, installing the token `xyz`. -/
def refOk : Refresher := fun _ => .ok { access := "xyz" }

/-- The scenario client with `refOk` installed. -/
def clientR : GCalClient := { clientAbc with oauth := some refOk }

/-- A descriptor whose URL resolution fails (the `UrlError` case of the
`Sendable` contract). -/
def badUrlDescriptor : Descriptor :=
  { path := fun _ => "", query := [], url := fun _ => .error .UrlError,
    bodyBytes := .ok [] }

/-- A descriptor with a well-formed URL whose body serialization fails (the
`SerializationError` case of the `Sendable` contract). -/
def failBodyDescriptor : Descriptor :=
  { path := fun _ => "p", query := [], url := specUrl (fun _ => "p") [],
    bodyBytes := .error .SerializationError }

/-- A non-200 response whose `WWW-Authenticate` header value is not valid
header text (byte 255). -/
def respBadHeader : Response :=
  { status := 401, headers := [("WWW-Authenticate", [255])], body := none }

/-- A client whose transport always answers with `respBadHeader`. -/
def clientBadHeader : GCalClient :=
  { clientAbc with respond := fun _ => .ok respBadHeader }

/-- A mock calendar-list entry in wire form. -/
def itemJson : Json :=
  .obj [("id", .str "cal1"), ("etag", .str "e1"), ("summary", .str "s"),
    ("accessRole", .str "reader"), ("defaultReminders", .arr [])]

/-- The mock collection response body: an object with `etag` and `items`. -/
def listJson : Json :=
  .obj [("etag", .str "e"), ("items", .arr [itemJson])]

/-- The value `itemJson` decodes to: serde fills `kind` from `default_entry_kind` and the
missing optional members with `none`. -/
def mockItem : CalendarListItem :=
  { kind := default_entry_kind, id := "cal1", etag := "e1", location := none,
    summary := "s", summary_override := none, time_zone := none,
    access_role := .reader, background_color := none,
    foreground_color := none, color_id := none,
    conference_properties := none, deleted := none, hidden := none,
    primary := none, selected := none, description := none,
    notification_settings := none, default_reminders := [],
    query_string := [] }

/-- The scenario client whose transport answers 200 with `listJson`. -/
def clientList : GCalClient :=
  { clientAbc with
      respond := fun _ =>
        .ok { status := 200, headers := [], body := some listJson } }

/-- The one request `CalendarListClient::list clientList true reader` puts on
the wire. -/
def mockListReq : Request :=
  { method := "GET",
    url :=
      { base := baseUrl, path := "users/me/calendarList",
        query := [("minAccessRole", "reader"), ("showHidden", "true")] },
    headers := [("Authorization", "Bearer abc")], body := none }

/-- A concrete item with every optional member absent and no reminders. -/
def itemNoNotif : CalendarListItem :=
  { kind := none, id := "i", etag := "e", location := none, summary := "s",
    summary_override := none, time_zone := none, access_role := .reader,
    background_color := none, foreground_color := none, color_id := none,
    conference_properties := none, deleted := none, hidden := none,
    primary := none, selected := none, description := none,
    notification_settings := none, default_reminders := [],
    query_string := [] }

/-- A transport builder that always succeeds. -/
def buildOk : TransportConfig → Except Unit (Request → Except ClientError Response) :=
  fun _ => .ok (fun _ => .ok okResp)

/-! ## Helper lemmas -/

/-- The requests a dispatch puts on the wire all derive from the request the
verb built: same body, method and URL, with headers only extended (by the
fixed header set and the bearer header). -/
theorem sentRequests_cons (e : Event) (l : List Event) :
    sentRequests (e :: l)
      = (match e with | .transportSend r => [r] | _ => []) ++ sentRequests l := by
  cases e <;> rfl

theorem sentRequests_append (l1 l2 : List Event) :
    sentRequests (l1 ++ l2) = sentRequests l1 ++ sentRequests l2 := by
  induction l1 with
  | nil => rfl
  | cons e es ih =>
    rw [List.cons_append, sentRequests_cons, sentRequests_cons, ih,
      List.append_assoc]

theorem sentRequests_dispatchWith (c : GCalClient) (tok : OToken)
    (req : Request) (pre : List Event) :
    sentRequests (dispatchWith c tok req pre).trace
      = sentRequests pre
        ++ [set_bearer { req with headers := req.headers ++ c.headers.getD [] }
            tok.access] := by
  unfold dispatchWith
  rcases hresp : c.respond (set_bearer
      { req with headers := req.headers ++ c.headers.getD [] } tok.access)
    with e | resp <;>
    simp only [hresp] <;>
    · show sentRequests (pre ++ _) = _
      rw [sentRequests_append]
      rfl

theorem send_sent_shape (c : GCalClient) (req : Request) :
    ∀ r ∈ sentRequests (c.send req).trace,
      r.body = req.body ∧ r.method = req.method ∧ r.url = req.url := by
  intro r hr
  unfold GCalClient.send at hr
  rcases hoa : c.oauth with _ | refresher
  · simp only [hoa] at hr
    rw [sentRequests_dispatchWith] at hr
    have : r = set_bearer
        { req with headers := req.headers ++ c.headers.getD [] }
        c.token.access := by simpa [sentRequests] using hr
    subst this
    simp [set_bearer]
  · simp only [hoa] at hr
    rcases hrt : refresher c.token with e | tok
    · simp only [hrt] at hr
      simp [sentRequests] at hr
    · simp only [hrt] at hr
      rw [sentRequests_dispatchWith] at hr
      have : r = set_bearer
          { req with headers := req.headers ++ c.headers.getD [] }
          tok.access := by simpa [sentRequests] using hr
      subst this
      simp [set_bearer]

/-- A dispatch performs at most one transport send. -/
theorem send_countP_send_le (c : GCalClient) (req : Request) :
    (c.send req).trace.countP Event.isSend ≤ 1 := by
  unfold GCalClient.send
  have hdisp : ∀ tok pre, pre.countP Event.isSend = 0 →
      (dispatchWith c tok req pre).trace.countP Event.isSend ≤ 1 := by
    intro tok pre hpre
    unfold dispatchWith
    rcases hresp : c.respond (set_bearer
        { req with headers := req.headers ++ c.headers.getD [] } tok.access)
      with e | resp <;>
      simp [hresp, List.countP_append, hpre, Event.isSend, List.countP_cons]
  rcases hoa : c.oauth with _ | refresher
  · simp only [hoa]
    exact hdisp c.token [] rfl
  · simp only [hoa]
    rcases hrt : refresher c.token with e | tok
    · simp only [hrt]
      simp [Event.isSend, List.countP_cons]
    · simp only [hrt]
      exact hdisp tok [Event.acquireWrite, Event.refreshCall,
        Event.releaseWrite] rfl

/-- The transport-send count of a trace is the number of sent requests. -/
theorem sentRequests_length (tr : List Event) :
    (sentRequests tr).length = tr.countP Event.isSend := by
  induction tr with
  | nil => rfl
  | cons e es ih =>
    cases e <;> simp [sentRequests, List.countP_cons, Event.isSend] <;>
      simpa [sentRequests] using ih

/-- Any verb routed through `verbCall` (GET/DELETE) sends at most once. -/
theorem verbCall_countP_send_le (c : GCalClient) (method : String)
    (d : Descriptor) (a : Option String) (body : Option (List Nat)) :
    (verbCall c method d a body).trace.countP Event.isSend ≤ 1 := by
  unfold verbCall
  rcases hu : c.get_url method d a with e | ⟨u, dg⟩
  · simp
  · simp only [hu]
    exact send_countP_send_le c _

/-! ## Claim theorems -/

/-- C10: the `path` methods of both calendar-list descriptors ignore the
action argument entirely: `CalendarList::path` is the constant
`users/me/calendarList` and `CalendarListItem::path` is
`users/me/calendarList/` followed by the item's id, for every choice of
optional action. -/
theorem c10_path_ignores_action :
    (∀ (cl : CalendarList) (a1 a2 : Option String),
      cl.path a1 = "users/me/calendarList" ∧ cl.path a1 = cl.path a2)
    ∧ (∀ (it : CalendarListItem) (a1 a2 : Option String),
      it.path a1 = "users/me/calendarList/" ++ it.id
        ∧ it.path a1 = it.path a2) :=
  ⟨fun _ _ _ => ⟨rfl, rfl⟩, fun _ _ _ => ⟨rfl, rfl⟩⟩

/-- Rust's `str::ends_with` on strings, via the character lists. -/
def strEndsWith (s p : String) : Bool := p.data.isSuffixOf s.data

/-- The single request the C5 scenario client puts on the wire. -/
def abcListReq : Request :=
  { method := "GET",
    url := { base := baseUrl, path := "users/me/calendarList", query := [] },
    headers := [("Authorization", "Bearer abc")], body := none }

/-- C5: a client built from token `abc` with no refresher, performing
`get(None, calendar-list descriptor)`, sends exactly one request, carrying
the header `Authorization: Bearer abc`, whose URL path ends with
`users/me/calendarList`. -/
theorem c5_bearer_header_scenario :
    clientAbc.token = { access := "abc" }
    ∧ clientAbc.oauth = none
    ∧ sentRequests (clientAbc.get none CalendarList.default.descriptor).trace
        = [abcListReq]
    ∧ abcListReq.headers = [("Authorization", "Bearer abc")]
    ∧ strEndsWith abcListReq.url.fullPath "users/me/calendarList" = true :=
  ⟨rfl, rfl, by set_option maxRecDepth 4000 in decide, rfl,
    by set_option maxRecDepth 4000 in decide⟩

/-- C3 (code bug): the debug diagnostic is not purely observational — with
debug mode enabled, a GET of a descriptor whose `body_bytes` fails returns
that `SerializationError` (the `?` on `target.body_bytes()` inside
`get_url`'s debug branch propagates it), while the identical call with debug
disabled succeeds. -/
theorem c3_debug_diagnostic_fails_call :
    clientDbg.debug = true
    ∧ failBodyDescriptor.bodyBytes = .error .SerializationError
    ∧ (clientDbg.get none failBodyDescriptor).result
        = .error .SerializationError
    ∧ clientAbc.debug = false
    ∧ (clientAbc.get none failBodyDescriptor).result = .ok okResp :=
  ⟨rfl, rfl, rfl, rfl, rfl⟩

/-- C4 (counterexample): with debug mode enabled, DELETE does consult
`body_bytes` — a descriptor whose body serialization fails does not
dispatch at all (empty trace) and the call errors, contradicting the claim
that GET/DELETE never invoke `body_bytes` and always dispatch. -/
theorem c4_counterexample :
    clientDbg.debug = true
    ∧ failBodyDescriptor.bodyBytes = .error .SerializationError
    ∧ (clientDbg.delete none failBodyDescriptor).result
        = .error .SerializationError
    ∧ (clientDbg.delete none failBodyDescriptor).trace = [] :=
  ⟨rfl, rfl, rfl, rfl⟩

/-- C7: `GCalClient::new` fails (with the transport-initialisation error
kind) exactly when the transport builder fails on the configuration it is
given — gzip compression on, HTTPS-only on — and on success returns a client
with that transport configuration, no fixed headers, the given token and
refresher, and debug disabled. -/
theorem c7_new_builds_transport
    (build : TransportConfig → Except Unit (Request → Except ClientError Response))
    (token : OToken) (oauth : Option Refresher) :
    (∀ e, build { gzip := true, httpsOnly := true } = .error e →
      GCalClient.new build token oauth = .error .TransportInitError)
    ∧ (∀ respond, build { gzip := true, httpsOnly := true } = .ok respond →
      GCalClient.new build token oauth
        = .ok
          { config := { gzip := true, httpsOnly := true },
            respond := respond, headers := none, token := token,
            oauth := oauth, debug := false })
    ∧ ((GCalClient.new build token oauth).isOk = true
        ↔ (build { gzip := true, httpsOnly := true }).isOk = true) := by
  refine ⟨?_, ?_, ?_⟩
  · intro e he
    simp only [GCalClient.new, he]
  · intro respond hr
    simp only [GCalClient.new, hr]
  · rcases hb : build { gzip := true, httpsOnly := true } with u | respond <;>
      simp [GCalClient.new, hb, Except.isOk, Except.toBool]

/-- Witness for C7 at a concrete always-succeeding builder. -/
theorem c7_witness :
    GCalClient.new buildOk tokAbc none
      = .ok
        { config := { gzip := true, httpsOnly := true },
          respond := fun _ => .ok okResp, headers := none, token := tokAbc,
          oauth := none, debug := false } :=
  (c7_new_builds_transport buildOk tokAbc none).2.1 (fun _ => .ok okResp) rfl

/-- C8: every verb call performs at most one transport send — the trace of
each of the five verbs contains at most one `transportSend` event, so no
request is ever re-sent, neither after the pre-dispatch refresh nor after an
`InvalidToken` classification. -/
theorem c8_at_most_one_send (c : GCalClient) (a : Option String)
    (d : Descriptor) :
    (c.get a d).trace.countP Event.isSend ≤ 1
    ∧ (c.post a d).trace.countP Event.isSend ≤ 1
    ∧ (c.put a d).trace.countP Event.isSend ≤ 1
    ∧ (c.patch a d).trace.countP Event.isSend ≤ 1
    ∧ (c.delete a d).trace.countP Event.isSend ≤ 1 := by
  refine ⟨verbCall_countP_send_le c "GET" d a none, ?_, ?_, ?_,
    verbCall_countP_send_le c "DELETE" d a none⟩
  · unfold GCalClient.post
    rcases hu : c.get_url "POST" d a with e | ⟨u, dg⟩
    · simp
    · simp only [hu]
      rcases hb : d.bodyBytes with e | bytes
      · simp only [hb]
        simp
      · simp only [hb]
        exact send_countP_send_le c _
  · unfold GCalClient.put
    rcases hu : c.get_url "PUT" d a with e | ⟨u, dg⟩
    · simp
    · simp only [hu]
      rcases hb : d.bodyBytes with e | bytes
      · simp only [hb]
        simp
      · simp only [hb]
        exact send_countP_send_le c _
  · unfold GCalClient.patch
    rcases hu : c.get_url "PATCH" d a with e | ⟨u, dg⟩
    · simp
    · simp only [hu]
      rcases hb : d.bodyBytes with e | bytes
      · simp only [hb]
        simp
      · simp only [hb]
        exact send_countP_send_le c _

/-- Exhaustive characterisation of the response inspection: which responses
classify to `InvalidToken`, which to the header-decode error, and which pass
through unchanged. -/
theorem classify_result_iff (resp : Response) :
    (classifyResponse resp = .error .InvalidToken ↔
      (resp.status ≠ 200 ∧ ∃ v s, findAuthHeader resp = some v
        ∧ headerToStr v = some s
        ∧ strStartsWith s invalidTokenMarker = true))
    ∧ (classifyResponse resp = .error .HeaderDecodeError ↔
      (resp.status ≠ 200 ∧ ∃ v, findAuthHeader resp = some v
        ∧ headerToStr v = none))
    ∧ (classifyResponse resp = .ok resp ↔
      (resp.status = 200 ∨ findAuthHeader resp = none
        ∨ ∃ v s, findAuthHeader resp = some v ∧ headerToStr v = some s
          ∧ strStartsWith s invalidTokenMarker = false)) := by
  by_cases hs : resp.status = 200
  · simp [classifyResponse, hs]
  · rcases hf : findAuthHeader resp with _ | v
    · simp [classifyResponse, hs, hf]
    · rcases ht : headerToStr v with _ | s
      · simp [classifyResponse, hs, hf, ht]
      · by_cases hw : strStartsWith s invalidTokenMarker
        · simp [classifyResponse, hs, hf, ht, hw]
        · simp [classifyResponse, hs, hf, ht, hw]

/-- C1 (amended): on any dispatch whose transport returns a response, the
verb call yields `InvalidToken` iff the status is not 200, a
`WWW-Authenticate` header is present, its value is valid header text and
that text starts with the invalid-token marker; a non-200 response whose
`WWW-Authenticate` value is not valid text yields the header-decode error
instead of a normal value; every other response is returned as a normal
`Ok`. -/
theorem c1_invalid_token_iff (c : GCalClient) (req : Request)
    (resp : Response) (hoauth : c.oauth = none)
    (htrans : ∀ r, c.respond r = .ok resp) :
    ((c.send req).result = .error .InvalidToken ↔
      (resp.status ≠ 200 ∧ ∃ v s, findAuthHeader resp = some v
        ∧ headerToStr v = some s
        ∧ strStartsWith s invalidTokenMarker = true))
    ∧ ((c.send req).result = .error .HeaderDecodeError ↔
      (resp.status ≠ 200 ∧ ∃ v, findAuthHeader resp = some v
        ∧ headerToStr v = none))
    ∧ ((c.send req).result = .ok resp ↔
      (resp.status = 200 ∨ findAuthHeader resp = none
        ∨ ∃ v s, findAuthHeader resp = some v ∧ headerToStr v = some s
          ∧ strStartsWith s invalidTokenMarker = false)) := by
  have hres : (c.send req).result = classifyResponse resp := by
    unfold GCalClient.send
    simp only [hoauth]
    unfold dispatchWith
    simp only [htrans]
  rw [hres]
  exact classify_result_iff resp

/-- The invalid-token header value of the spec's 401 scenario. -/
def invHeaderStr : String :=
  "Bearer error=\"invalid_token\", error_description=\"x\""

/-- Its wire bytes. -/
def invHeaderBytes : List Nat := asciiBytes invHeaderStr

/-- The 401 response of the spec's invalid-token scenario. -/
def respInv : Response :=
  { status := 401, headers := [("WWW-Authenticate", invHeaderBytes)],
    body := none }

/-- A client whose transport always answers with `respInv`. -/
def clientInv : GCalClient :=
  { clientAbc with respond := fun _ => .ok respInv }

/-- Witness for C1: a 401 response carrying
`WWW-Authenticate: Bearer error="invalid_token", ...` makes the dispatch
return `InvalidToken`. -/
theorem c1_witness : (clientInv.send reqNone).result = .error .InvalidToken :=
  ((c1_invalid_token_iff clientInv reqNone respInv rfl (fun _ => rfl)).1).mpr
    ⟨by decide, invHeaderBytes, invHeaderStr, by decide,
      by set_option maxRecDepth 4000 in decide,
      by set_option maxRecDepth 4000 in decide⟩

/-- C1 (counterexample to the claim as stated): a non-200 response that
carries a `WWW-Authenticate` header whose value is not valid header text
(byte 255) — hence does not begin with the marker — is not returned as a
normal `Ok` value; the verb call errors with the header-decode error. -/
theorem c1_counterexample :
    respBadHeader.status ≠ 200
    ∧ findAuthHeader respBadHeader = some [255]
    ∧ headerToStr [255] = none
    ∧ (clientBadHeader.get none CalendarList.default.descriptor).result
        = .error .HeaderDecodeError :=
  ⟨by decide, by decide, by decide, rfl⟩

/-- The trace and final token of the post-refresh dispatch stage. -/
theorem dispatchWith_trace_token (c : GCalClient) (tok : OToken)
    (req : Request) (pre : List Event) :
    (dispatchWith c tok req pre).trace
      = pre ++ [Event.acquireRead, Event.readToken tok.access,
        Event.releaseRead, Event.transportSend (set_bearer
          { req with headers := req.headers ++ c.headers.getD [] }
          tok.access)]
    ∧ (dispatchWith c tok req pre).token = tok := by
  unfold dispatchWith
  rcases hresp : c.respond (set_bearer
      { req with headers := req.headers ++ c.headers.getD [] } tok.access)
    with e | resp <;> simp [hresp]

/-- C2 (amended): on every dispatch, a configured refresher runs exactly
once, bracketed by the write-lock events, and every token read happens
strictly after it; with no refresher the dispatch performs no write-access
event and leaves the token store unchanged.  A verb call whose URL
resolution fails aborts with an empty trace, before any refresh. -/
theorem c2_refresh_precedes_token_read (c : GCalClient) (req : Request) :
    (∀ r, c.oauth = some r →
      ∃ rest, (c.send req).trace
          = Event.acquireWrite :: Event.refreshCall :: Event.releaseWrite :: rest
        ∧ rest.countP Event.isRefresh = 0
        ∧ ∀ n a, (c.send req).trace.get? n = some (Event.readToken a) → 3 ≤ n)
    ∧ (c.oauth = none →
      (c.send req).trace.countP Event.isWrite = 0
      ∧ (c.send req).token = c.token)
    ∧ (∀ a d e, c.get_url "GET" d a = .error e → (c.get a d).trace = []) := by
  refine ⟨?_, ?_, ?_⟩
  · intro r hr
    unfold GCalClient.send
    simp only [hr]
    rcases hrt : r c.token with e | tok
    · simp only [hrt]
      refine ⟨[], rfl, rfl, ?_⟩
      intro n a h
      rcases n with _ | _ | _ | n
      · simp at h
      · simp at h
      · simp at h
      · omega
    · simp only [hrt]
      rcases dispatchWith_trace_token c tok req
        [Event.acquireWrite, Event.refreshCall, Event.releaseWrite]
        with ⟨htr, _⟩
      rw [htr]
      refine ⟨_, rfl, by simp [Event.isRefresh, List.countP_cons], ?_⟩
      intro n a h
      rcases n with _ | _ | _ | n
      · simp at h
      · simp at h
      · simp at h
      · omega
  · intro h0
    unfold GCalClient.send
    simp only [h0]
    rcases dispatchWith_trace_token c c.token req [] with ⟨htr, htok⟩
    rw [htr, htok]
    exact ⟨by simp [Event.isWrite, List.countP_cons], rfl⟩
  · intro a d e h
    unfold GCalClient.get verbCall
    simp only [h]

/-- Witness for C2 at a concrete client with a refresher installed. -/
theorem c2_witness :
    ∃ rest, (clientR.send reqNone).trace
        = Event.acquireWrite :: Event.refreshCall :: Event.releaseWrite :: rest
      ∧ rest.countP Event.isRefresh = 0
      ∧ ∀ n a, (clientR.send reqNone).trace.get? n
          = some (Event.readToken a) → 3 ≤ n :=
  (c2_refresh_precedes_token_read clientR reqNone).1 refOk rfl

/-- C2 (counterexample to the claim as stated): a verb call on a client with
a refresher configured whose descriptor URL fails to resolve invokes the
refresher zero times, not exactly once. -/
theorem c2_counterexample :
    clientR.oauth = some refOk
    ∧ (clientR.get none badUrlDescriptor).trace.countP Event.isRefresh = 0
    ∧ ¬ (clientR.get none badUrlDescriptor).trace.countP Event.isRefresh = 1
    ∧ (clientR.get none badUrlDescriptor).result = .error .UrlError :=
  ⟨rfl, by decide, by decide, rfl⟩

/-- C4 (amended): with debug mode disabled, GET and DELETE are independent
of the descriptor's body — the whole outcome is unchanged under any
replacement of `bodyBytes`, and every request they put on the wire carries
no body — while POST/PUT/PATCH attach the resolved body bytes to the wire
request. -/
theorem c4_get_delete_ignore_body (c : GCalClient) (a : Option String)
    (d : Descriptor) (bb : Except ClientError (List Nat))
    (hdbg : c.debug = false) :
    c.get a d = c.get a { d with bodyBytes := bb }
    ∧ c.delete a d = c.delete a { d with bodyBytes := bb }
    ∧ (∀ r ∈ sentRequests (c.get a d).trace, r.body = none)
    ∧ (∀ r ∈ sentRequests (c.delete a d).trace, r.body = none)
    ∧ (∀ bs, d.bodyBytes = .ok bs →
        (∀ r ∈ sentRequests (c.post a d).trace, r.body = some bs)
        ∧ (∀ r ∈ sentRequests (c.put a d).trace, r.body = some bs)
        ∧ (∀ r ∈ sentRequests (c.patch a d).trace, r.body = some bs)) := by
  refine ⟨?_, ?_, ?_, ?_, ?_⟩
  · rcases hu : d.url a with e | u <;>
      simp [GCalClient.get, verbCall, GCalClient.get_url, hdbg, hu]
  · rcases hu : d.url a with e | u <;>
      simp [GCalClient.delete, verbCall, GCalClient.get_url, hdbg, hu]
  · intro r hr
    unfold GCalClient.get verbCall at hr
    rcases hu : c.get_url "GET" d a with e | ⟨u, dg⟩
    · simp only [hu] at hr
      simp [sentRequests] at hr
    · simp only [hu] at hr
      exact (send_sent_shape c _ r hr).1
  · intro r hr
    unfold GCalClient.delete verbCall at hr
    rcases hu : c.get_url "DELETE" d a with e | ⟨u, dg⟩
    · simp only [hu] at hr
      simp [sentRequests] at hr
    · simp only [hu] at hr
      exact (send_sent_shape c _ r hr).1
  · intro bs hbs
    refine ⟨?_, ?_, ?_⟩
    · intro r hr
      unfold GCalClient.post at hr
      rcases hu : c.get_url "POST" d a with e | ⟨u, dg⟩
      · simp only [hu] at hr
        simp [sentRequests] at hr
      · simp only [hu, hbs] at hr
        exact (send_sent_shape c _ r hr).1
    · intro r hr
      unfold GCalClient.put at hr
      rcases hu : c.get_url "PUT" d a with e | ⟨u, dg⟩
      · simp only [hu] at hr
        simp [sentRequests] at hr
      · simp only [hu, hbs] at hr
        exact (send_sent_shape c _ r hr).1
    · intro r hr
      unfold GCalClient.patch at hr
      rcases hu : c.get_url "PATCH" d a with e | ⟨u, dg⟩
      · simp only [hu] at hr
        simp [sentRequests] at hr
      · simp only [hu, hbs] at hr
        exact (send_sent_shape c _ r hr).1

/-- Witness for C4: with debug off, a GET of a descriptor with failing body
serialization equals the same GET with any other body. -/
theorem c4_witness :
    clientAbc.get none failBodyDescriptor
      = clientAbc.get none { failBodyDescriptor with bodyBytes := .ok [] } :=
  (c4_get_delete_ignore_body clientAbc none failBodyDescriptor (.ok []) rfl).1

/-- The listing call's trace is exactly the trace of its one underlying
`get`. -/
theorem list_trace_eq (c : GCalClient) (hidden : Bool)
    (role : CalendarAccessRole) :
    (CalendarListClient.list c hidden role).trace
      = (c.get none (listDescriptor hidden role)).trace := by
  unfold CalendarListClient.list
  rcases h1 : (c.get none (listDescriptor hidden role)).result with e | resp
  · simp only [h1]
  · rcases h2 : bodyJsonCalendarList resp with e | cl2 <;> simp only [h1, h2]

/-- C6: `CalendarListClient::list hidden role` dispatches one GET (no
continuation loop, so at most one request) on the descriptor whose query
mapping is exactly `minAccessRole ↦ role` and `showHidden ↦ hidden`; every
request it puts on the wire is a GET for `users/me/calendarList` with
exactly those two query parameters, and its result is precisely the `items`
field of the response body decoded as a `CalendarList`. -/
theorem c6_list_query_and_items (c : GCalClient) (hidden : Bool)
    (role : CalendarAccessRole) :
    (listDescriptor hidden role).query
        = [("minAccessRole", role.str), ("showHidden", boolStr hidden)]
    ∧ (∀ r ∈ sentRequests (CalendarListClient.list c hidden role).trace,
        r.method = "GET"
        ∧ r.url.path = "users/me/calendarList"
        ∧ r.url.query
            = [("minAccessRole", role.str), ("showHidden", boolStr hidden)])
    ∧ (sentRequests (CalendarListClient.list c hidden role).trace).length ≤ 1
    ∧ (CalendarListClient.list c hidden role).result
        = (match (c.get none (listDescriptor hidden role)).result with
           | .error e => .error e
           | .ok resp =>
             match bodyJsonCalendarList resp with
             | .error e => .error e
             | .ok cl2 => .ok cl2.items) := by
  refine ⟨rfl, ?_, ?_, ?_⟩
  · intro r hr
    rw [list_trace_eq] at hr
    unfold GCalClient.get verbCall at hr
    rcases hu : c.get_url "GET" (listDescriptor hidden role) none
      with e | ⟨u, dg⟩
    · simp only [hu] at hr
      simp [sentRequests] at hr
    · simp only [hu] at hr
      have hu2 : u =
          { base := baseUrl, path := "users/me/calendarList",
            query := [("minAccessRole", role.str),
              ("showHidden", boolStr hidden)] } := by
        rcases hd : c.debug <;>
          simp [GCalClient.get_url, listDescriptor, CalendarList.descriptor,
            specUrl, CalendarList.path, CalendarList.query, insertQuery,
            hd] at hu <;>
          exact hu.1.symm
      obtain ⟨hb, hm, hurl⟩ := send_sent_shape c _ r hr
      subst hu2
      exact ⟨hm, by rw [hurl], by rw [hurl]⟩
  · rw [sentRequests_length, list_trace_eq]
    exact verbCall_countP_send_le c "GET" (listDescriptor hidden role) none
      none
  · unfold CalendarListClient.list
    rcases h1 : (c.get none (listDescriptor hidden role)).result with e | resp
    · simp only [h1]
    · rcases h2 : bodyJsonCalendarList resp with e | cl2 <;>
        simp only [h1, h2]

/-- Witness for C6 against a mock transport answering the collection JSON:
the dispatched request is a GET for `users/me/calendarList` with exactly the
two query parameters, and the decoded result equals the `items` field of the
mock body. -/
theorem c6_witness :
    (mockListReq.method = "GET"
      ∧ mockListReq.url.path = "users/me/calendarList"
      ∧ mockListReq.url.query
          = [("minAccessRole", CalendarAccessRole.reader.str),
             ("showHidden", boolStr true)])
    ∧ (CalendarListClient.list clientList true .reader).result
        = .ok [mockItem] := by
  constructor
  · exact (c6_list_query_and_items clientList true .reader).2.1 mockListReq
      (by set_option maxRecDepth 8000 in decide)
  · set_option maxRecDepth 8000 in rfl

/-- The wire names of the fields of `CalendarListItem`, in declaration
order: the serde `rename_all = "camelCase"` forms. -/
def calendarListItemKeys : List String :=
  ["kind", "id", "etag", "location", "summary", "summaryOverride",
   "timeZone", "accessRole", "backgroundColor", "foregroundColor",
   "colorId", "conferenceProperties", "deleted", "hidden", "primary",
   "selected", "description", "notificationSettings", "defaultReminders"]

theorem mem_optField_keys (k n : String) (v : Option Json) :
    k ∈ (optField n v).map Prod.fst ↔ (k = n ∧ v.isSome = true) := by
  cases v <;> simp [optField]

theorem mem_optField_pair (k : String) (j : Json) (n : String)
    (v : Option Json) :
    (k, j) ∈ optField n v ↔ (k = n ∧ v = some j) := by
  cases v with
  | none => simp [optField]
  | some w =>
    simp only [optField, List.mem_singleton, Prod.mk.injEq,
      Option.some.injEq]
    constructor
    · rintro ⟨h1, h2⟩
      exact ⟨h1, h2.symm⟩
    · rintro ⟨h1, h2⟩
      exact ⟨h1, h2.symm⟩

set_option maxHeartbeats 4000000 in
/-- C9 (amended): serializing a `CalendarListItem` emits only the
lower-camel-case wire names; every optional field marked skip-if-none
(`kind`, `location`, `summaryOverride`, `timeZone`, `backgroundColor`,
`foregroundColor`, `colorId`, `conferenceProperties`, `deleted`, `hidden`,
`primary`, `selected`, `description`) appears exactly when its value is
present; `defaultReminders` appears exactly when the collection is
non-empty; the required fields always appear; and `notificationSettings` —
which carries no skip attribute — always appears, as `null` exactly when the
value is absent. -/
theorem c9_item_serialization (it : CalendarListItem) :
    (∀ k ∈ it.serFields.map Prod.fst, k ∈ calendarListItemKeys)
    ∧ ("kind" ∈ it.serFields.map Prod.fst ↔ it.kind.isSome = true)
    ∧ ("location" ∈ it.serFields.map Prod.fst ↔ it.location.isSome = true)
    ∧ ("summaryOverride" ∈ it.serFields.map Prod.fst
        ↔ it.summary_override.isSome = true)
    ∧ ("timeZone" ∈ it.serFields.map Prod.fst ↔ it.time_zone.isSome = true)
    ∧ ("backgroundColor" ∈ it.serFields.map Prod.fst
        ↔ it.background_color.isSome = true)
    ∧ ("foregroundColor" ∈ it.serFields.map Prod.fst
        ↔ it.foreground_color.isSome = true)
    ∧ ("colorId" ∈ it.serFields.map Prod.fst ↔ it.color_id.isSome = true)
    ∧ ("conferenceProperties" ∈ it.serFields.map Prod.fst
        ↔ it.conference_properties.isSome = true)
    ∧ ("deleted" ∈ it.serFields.map Prod.fst ↔ it.deleted.isSome = true)
    ∧ ("hidden" ∈ it.serFields.map Prod.fst ↔ it.hidden.isSome = true)
    ∧ ("primary" ∈ it.serFields.map Prod.fst ↔ it.primary.isSome = true)
    ∧ ("selected" ∈ it.serFields.map Prod.fst ↔ it.selected.isSome = true)
    ∧ ("description" ∈ it.serFields.map Prod.fst
        ↔ it.description.isSome = true)
    ∧ ("defaultReminders" ∈ it.serFields.map Prod.fst
        ↔ ¬ it.default_reminders = [])
    ∧ "id" ∈ it.serFields.map Prod.fst
    ∧ "etag" ∈ it.serFields.map Prod.fst
    ∧ "summary" ∈ it.serFields.map Prod.fst
    ∧ "accessRole" ∈ it.serFields.map Prod.fst
    ∧ "notificationSettings" ∈ it.serFields.map Prod.fst
    ∧ (("notificationSettings", Json.null) ∈ it.serFields
        ↔ it.notification_settings = none) := by
  refine ⟨?_, ?_, ?_, ?_, ?_, ?_, ?_, ?_, ?_, ?_, ?_, ?_, ?_, ?_, ?_, ?_,
    ?_, ?_, ?_, ?_, ?_⟩
  · intro k hk
    rcases hdr : it.default_reminders with _ | ⟨x, xs⟩
    · simp only [CalendarListItem.serFields, hdr, List.isEmpty_nil, if_true,
        List.map_append, List.mem_append, mem_optField_keys, List.map_cons,
        List.map_nil, List.mem_cons, List.mem_singleton, List.not_mem_nil,
        List.append_nil, or_false, or_assoc] at hk
      rcases hk with ⟨rfl, -⟩ | rfl | rfl | ⟨rfl, -⟩ | rfl | ⟨rfl, -⟩
        | ⟨rfl, -⟩ | rfl | ⟨rfl, -⟩ | ⟨rfl, -⟩ | ⟨rfl, -⟩ | ⟨rfl, -⟩
        | ⟨rfl, -⟩ | ⟨rfl, -⟩ | ⟨rfl, -⟩ | ⟨rfl, -⟩ | ⟨rfl, -⟩ | rfl <;>
        decide
    · simp only [CalendarListItem.serFields, hdr, List.isEmpty_cons,
        Bool.false_eq_true, if_false, List.map_append, List.mem_append,
        mem_optField_keys, List.map_cons, List.map_nil, List.mem_cons,
        List.mem_singleton, List.not_mem_nil, List.append_nil, or_false,
        or_assoc] at hk
      rcases hk with ⟨rfl, -⟩ | rfl | rfl | ⟨rfl, -⟩ | rfl | ⟨rfl, -⟩
        | ⟨rfl, -⟩ | rfl | ⟨rfl, -⟩ | ⟨rfl, -⟩ | ⟨rfl, -⟩ | ⟨rfl, -⟩
        | ⟨rfl, -⟩ | ⟨rfl, -⟩ | ⟨rfl, -⟩ | ⟨rfl, -⟩ | ⟨rfl, -⟩ | rfl
        | rfl <;>
        decide
  · rcases hdr : it.default_reminders with _ | ⟨x, xs⟩ <;>
      cases hf : it.kind <;>
      simp [CalendarListItem.serFields, hdr, hf, List.mem_append,
        mem_optField_keys, mem_optField_pair]
  · rcases hdr : it.default_reminders with _ | ⟨x, xs⟩ <;>
      cases hf : it.location <;>
      simp [CalendarListItem.serFields, hdr, hf, List.mem_append,
        mem_optField_keys, mem_optField_pair]
  · rcases hdr : it.default_reminders with _ | ⟨x, xs⟩ <;>
      cases hf : it.summary_override <;>
      simp [CalendarListItem.serFields, hdr, hf, List.mem_append,
        mem_optField_keys, mem_optField_pair]
  · rcases hdr : it.default_reminders with _ | ⟨x, xs⟩ <;>
      cases hf : it.time_zone <;>
      simp [CalendarListItem.serFields, hdr, hf, List.mem_append,
        mem_optField_keys, mem_optField_pair]
  · rcases hdr : it.default_reminders with _ | ⟨x, xs⟩ <;>
      cases hf : it.background_color <;>
      simp [CalendarListItem.serFields, hdr, hf, List.mem_append,
        mem_optField_keys, mem_optField_pair]
  · rcases hdr : it.default_reminders with _ | ⟨x, xs⟩ <;>
      cases hf : it.foreground_color <;>
      simp [CalendarListItem.serFields, hdr, hf, List.mem_append,
        mem_optField_keys, mem_optField_pair]
  · rcases hdr : it.default_reminders with _ | ⟨x, xs⟩ <;>
      cases hf : it.color_id <;>
      simp [CalendarListItem.serFields, hdr, hf, List.mem_append,
        mem_optField_keys, mem_optField_pair]
  · rcases hdr : it.default_reminders with _ | ⟨x, xs⟩ <;>
      cases hf : it.conference_properties <;>
      simp [CalendarListItem.serFields, hdr, hf, List.mem_append,
        mem_optField_keys, mem_optField_pair]
  · rcases hdr : it.default_reminders with _ | ⟨x, xs⟩ <;>
      cases hf : it.deleted <;>
      simp [CalendarListItem.serFields, hdr, hf, List.mem_append,
        mem_optField_keys, mem_optField_pair]
  · rcases hdr : it.default_reminders with _ | ⟨x, xs⟩ <;>
      cases hf : it.hidden <;>
      simp [CalendarListItem.serFields, hdr, hf, List.mem_append,
        mem_optField_keys, mem_optField_pair]
  · rcases hdr : it.default_reminders with _ | ⟨x, xs⟩ <;>
      cases hf : it.primary <;>
      simp [CalendarListItem.serFields, hdr, hf, List.mem_append,
        mem_optField_keys, mem_optField_pair]
  · rcases hdr : it.default_reminders with _ | ⟨x, xs⟩ <;>
      cases hf : it.selected <;>
      simp [CalendarListItem.serFields, hdr, hf, List.mem_append,
        mem_optField_keys, mem_optField_pair]
  · rcases hdr : it.default_reminders with _ | ⟨x, xs⟩ <;>
      cases hf : it.description <;>
      simp [CalendarListItem.serFields, hdr, hf, List.mem_append,
        mem_optField_keys, mem_optField_pair]
  · rcases hdr : it.default_reminders with _ | ⟨x, xs⟩ <;>
      simp [CalendarListItem.serFields, hdr, List.mem_append,
        mem_optField_keys, mem_optField_pair]
  · simp [CalendarListItem.serFields, List.mem_append, mem_optField_keys]
  · simp [CalendarListItem.serFields, List.mem_append, mem_optField_keys]
  · simp [CalendarListItem.serFields, List.mem_append, mem_optField_keys]
  · simp [CalendarListItem.serFields, List.mem_append, mem_optField_keys]
  · simp [CalendarListItem.serFields, List.mem_append, mem_optField_keys]
  · rcases hns : it.notification_settings with _ | ns <;>
      rcases hdr : it.default_reminders with _ | ⟨x, xs⟩ <;>
      simp [CalendarListItem.serFields, hns, hdr, List.mem_append,
        mem_optField_pair, NotificationSettings.toJson]

/-- Witness for C9 at a concrete item. -/
theorem c9_witness : "id" ∈ calendarListItemKeys :=
  (c9_item_serialization itemNoNotif).1 "id" (by decide)

/-- C9 (counterexample to the claim as stated): an item whose
`notification_settings` is absent does not omit the field — the serialized
record carries `notificationSettings` mapped to `null`. -/
theorem c9_counterexample :
    itemNoNotif.notification_settings = none
    ∧ ("notificationSettings", Json.null) ∈ itemNoNotif.serFields := by
  refine ⟨rfl, ?_⟩
  have h : itemNoNotif.serFields
      = [("id", .str "i"), ("etag", .str "e"), ("summary", .str "s"),
         ("accessRole", .str "reader"), ("notificationSettings", .null)] :=
    rfl
  rw [h]
  simp

end Gcal
